import Mathlib

/-!
Shallow embedding of the TikZ compilation HTTP service (`src/main.py`).

The service is a sequential orchestration of two external command-line
tools (a LaTeX compiler and a raster converter).  The external world —
subprocess outcomes, the compiler log, the produced artifact files — is
modelled as an oracle record (`CompileEnv`, `HealthEnv`); a completed
subprocess is a `ProcResult`, while `none` models `subprocess.run`
raising (timeout or spawn failure).  The handlers themselves are pure
functions from a request and an oracle to an HTTP outcome.
-/

namespace TikzService

/-- Outcome of a completed `subprocess.run` invocation.  `none` at the
oracle models the call raising (`TimeoutExpired` or a spawn failure). -/
structure ProcResult where
  returncode : Int
  stdout : String
  stderr : String
deriving DecidableEq

/-- The `timeout=45` of the `pdflatex` invocation in `compile_latex_to_pdf`. -/
def PDFLATEX_TIMEOUT : Nat := 45

/-- The `timeout=30` of the `convert` invocation in `convert_pdf_to_png`. -/
def CONVERT_TIMEOUT : Nat := 30

/-- The `timeout=10` of the `pdflatex --version` probe in `check_tex_installation`. -/
def HEALTH_PDFLATEX_TIMEOUT : Nat := 10

/-- The `timeout=5` of both `kpsewhich` package probes in `check_tex_installation`. -/
def HEALTH_KPSEWHICH_TIMEOUT : Nat := 5

/-- The `timeout=3` of each `kpsewhich tikzlibrary*.code.tex` probe. -/
def HEALTH_LIB_TIMEOUT : Nat := 3

/-- The `timeout=5` of the `convert --version` probe in `check_tex_installation`. -/
def HEALTH_CONVERT_TIMEOUT : Nat := 5

/-- Does the character list `l` start with the list `pat`? -/
def startsWithList : List Char → List Char → Bool
  | _, [] => true
  | [], _ :: _ => false
  | a :: as, b :: bs => a == b && startsWithList as bs

/-- Does `pat` occur as a contiguous sublist of `l`?  (Python's `in`.) -/
def containsList : List Char → List Char → Bool
  | [], pat => pat.isEmpty
  | a :: rest, pat => startsWithList (a :: rest) pat || containsList rest pat

/-- Python's substring test `pat in s`. -/
def containsSub (s pat : String) : Bool := containsList s.data pat.data

/-- Split a character list at newline characters (`str.split("\n")`):
always at least one piece, empty pieces kept. -/
def splitNl : List Char → List (List Char)
  | [] => [[]]
  | c :: rest =>
    if c = '\n' then [] :: splitNl rest
    else
      match splitNl rest with
      | [] => [[c]]
      | h :: t => (c :: h) :: t

/-- Python `log_content.split("\n")` as a list of strings. -/
def pySplitLines (s : String) : List String := (splitNl s.data).map String.mk

/-- ASCII lowercasing of one character (`str.lower()` member). -/
def asciiLower (c : Char) : Char :=
  if 'A' ≤ c ∧ c ≤ 'Z' then Char.ofNat (c.toNat + 32) else c

/-- Python `s.lower()` (the log pattern searched for is pure ASCII, so the
ASCII case map is the relevant part of Python's `str.lower`). -/
def pyLower (s : String) : String := String.mk (s.data.map asciiLower)

/-- The slice `s[:n]` of a Python string. -/
def pyTake (s : String) (n : Nat) : String := String.mk (s.data.take n)

/-- Is `pat` a suffix of `l`? -/
def listEndsWith (l pat : List Char) : Bool :=
  startsWithList l.reverse pat.reverse

/-- The six ASCII characters stripped by Python's `str.strip()`.  (The
full Python whitespace class also has some non-ASCII code points; the
source only ever strips user TikZ text, for which the ASCII class is the
relevant one, and no claim depends on the non-ASCII members.) -/
def pySpace (c : Char) : Bool :=
  c == ' ' || c == '\t' || c == '\n' || c == '\r' || c == '\x0b' || c == '\x0c'

/-- Python `not s.strip()`: the string is empty or all whitespace. -/
def isBlank (s : String) : Bool := s.data.all pySpace

/-- Python `os.path.join(a, b)` for the shapes used here (absolute `a`, no
trailing slash, relative `b`). -/
def joinPath (a b : String) : String := a ++ "/" ++ b

/-- The rendered LaTeX document: `LATEX_TEMPLATE.format(tikz_content=code)`
from `src/main.py`. -/
def latex_document (tikz_content : String) : String :=
  "\n\\documentclass[border=2pt]\x7bstandalone\x7d\n\\usepackage\x7btikz\x7d\n\\usepackage\x7bpgfplots\x7d\n\\usepackage\x7bamsmath\x7d\n\\usepackage\x7bamsfonts\x7d\n\\usepackage\x7bamssymb\x7d\n\\usepackage\x7bxcolor\x7d\n\\usepackage\x7bgraphicx\x7d\n\n% Load TikZ libraries phổ biến\n\\usetikzlibrary\x7b\n    arrows,\n    arrows.meta,\n    decorations.pathmorphing,\n    decorations.markings,\n    backgrounds,\n    positioning,\n    fit,\n    calc,\n    patterns,\n    shapes,\n    shapes.geometric,\n    shapes.misc,\n    plotmarks,\n    matrix,\n    trees,\n    automata,\n    circuits,\n    3d\n\x7d\n\n% Set pgfplots compatibility\n\\pgfplotsset\x7bcompat=1.16\x7d\n\n\\begin\x7bdocument\x7d\n\\begin\x7btikzpicture\x7d\n"
    ++ tikz_content ++ "\n\\end\x7btikzpicture\x7d\n\\end\x7bdocument\x7d\n"

/-- The argument vector of the `pdflatex` invocation. -/
def pdflatex_cmd (temp_dir latex_file : String) : List String :=
  ["pdflatex", "-interaction=nonstopmode", "-halt-on-error",
   "-output-directory", temp_dir, latex_file]

/-- The argument vector of the `convert` invocation built in
`convert_pdf_to_png`. -/
def convert_cmd (dpi : Nat) (background : String) (pdf_file png_file : String) :
    List String :=
  ["convert", "-density", toString dpi, "-quality", "100"] ++
  (if background = "transparent" then ["-background", "transparent"]
   else ["-background", background]) ++
  ["-alpha", if background = "transparent" then "on" else "remove",
   pdf_file, png_file]

/-- Oracle for one `/compile` request: outcomes of the two subprocess
invocations and the state of the files the request reads. -/
structure CompileEnv where
  /-- Outcome of `subprocess.run(pdflatex_cmd, timeout)` given the
  rendered document content; `none` models raising. -/
  pdflatexRun : List String → String → Nat → Option ProcResult
  /-- Content of `tikz.log` after the compiler ran, `none` when the log
  file does not exist. -/
  logFile : Option String
  /-- Whether `tikz.pdf` exists after the compiler ran. -/
  pdfExists : Bool
  /-- Bytes of `tikz.pdf`. -/
  pdfBytes : List Nat
  /-- Outcome of `subprocess.run(convert_cmd, timeout)`; `none` models
  raising. -/
  convertRun : List String → Nat → Option ProcResult
  /-- Whether `tikz.png` exists after the converter ran. -/
  pngExists : Bool
  /-- Bytes of `tikz.png`. -/
  pngBytes : List Nat
  /-- The directory returned by `tempfile.mkdtemp()`. -/
  tempDir : String
  /-- The `str(uuid.uuid4())` drawn for this request. -/
  fileId : String

/-- The `pdflatex` invocation of `compile_latex_to_pdf`, with its
argument vector and its 45-second timeout. -/
def run_pdflatex (env : CompileEnv) (doc : String) : Option ProcResult :=
  env.pdflatexRun
    (pdflatex_cmd env.tempDir (joinPath env.tempDir "tikz.tex"))
    doc PDFLATEX_TIMEOUT

/-- The `convert` invocation of `convert_pdf_to_png`, with its argument
vector and its 30-second timeout. -/
def run_convert (env : CompileEnv) (dpi : Nat) (background : String) :
    Option ProcResult :=
  env.convertRun
    (convert_cmd dpi background (joinPath env.tempDir "tikz.pdf")
      (joinPath env.tempDir "tikz.png"))
    CONVERT_TIMEOUT

/-- Fixed message for the `"! Undefined control sequence"` log pattern. -/
def UNDEF_MSG : String :=
  "Undefined control sequence - có thể thiếu package hoặc library TikZ"

/-- Fixed message for the `"! Package tikz Error:"` log pattern. -/
def TIKZ_MSG : String := "TikZ package error - kiểm tra syntax TikZ code"

/-- Fixed message for the `"! Package pgfplots Error:"` log pattern. -/
def PGF_MSG : String := "PGFPlots error - kiểm tra plot syntax"

/-- Fixed message for the `"library not found"` log pattern. -/
def LIB_MSG : String := "TikZ library not found - thử bỏ một số usetikzlibrary"

/-- The line scan of the `"! LaTeX Error:"` branch: the first line
containing the pattern that is followed by a further line, concatenated
with that following line (`line + " " + lines[i+1]`); `none` when no
non-final line contains the pattern. -/
def findLatexError : List String → Option String
  | [] => none
  | l1 :: rest =>
    match rest with
    | [] => none
    | l2 :: _ =>
      if containsSub l1 "! LaTeX Error:" then some (l1 ++ " " ++ l2)
      else findLatexError rest

/-- The `error_details` computed from the log content and the process
stderr when the compiler exited non-zero and the log file exists
(`src/main.py` lines 110–132). -/
def error_details_of (log_content : String) (stderr : String) : String :=
  if containsSub log_content "! LaTeX Error:" then
    match findLatexError (pySplitLines log_content) with
    | some d => d
    | none => "Unknown LaTeX error"
  else if containsSub log_content "! Undefined control sequence" then UNDEF_MSG
  else if containsSub log_content "! Package tikz Error:" then TIKZ_MSG
  else if containsSub log_content "! Package pgfplots Error:" then PGF_MSG
  else if containsSub (pyLower log_content) "library not found" then LIB_MSG
  else if stderr ≠ "" then pyTake stderr 300
  else "Unknown LaTeX error"

/-- The `error_details` for a failed compile: `"Unknown LaTeX error"`
when the log file does not exist, else the log scan. -/
def latex_error_details (env : CompileEnv) (r : ProcResult) : String :=
  match env.logFile with
  | some log => error_details_of log r.stderr
  | none => "Unknown LaTeX error"

/-- Function `compile_latex_to_pdf` from `src/main.py`.  `.error m` is the message
of the exception the Python function raises; note the outer
`except Exception` wraps the two in-`try` raises in
`"Compilation error: "`, while the `TimeoutExpired` message escapes
unwrapped. -/
def compile_latex_to_pdf (env : CompileEnv) (doc : String) : Except String Unit :=
  match run_pdflatex env doc with
  | none =>
    .error "LaTeX compilation timeout (45s) - code quá phức tạp hoặc lỗi infinite loop"
  | some r =>
    if r.returncode ≠ 0 then
      .error ("Compilation error: " ++
        ("LaTeX compilation failed: " ++ latex_error_details env r))
    else if env.pdfExists then .ok ()
    else .error ("Compilation error: " ++ "PDF file was not generated - check LaTeX syntax")

/-- Function `convert_pdf_to_png` from `src/main.py`; same wrapping discipline as
`compile_latex_to_pdf` (the timeout message escapes unwrapped, the
in-`try` raises are wrapped in `"Conversion error: "`). -/
def convert_pdf_to_png (env : CompileEnv) (dpi : Nat) (background : String) :
    Except String Unit :=
  match run_convert env dpi background with
  | none => .error "PDF to PNG conversion timeout"
  | some r =>
    if r.returncode ≠ 0 then
      .error ("Conversion error: " ++ ("PDF to PNG conversion failed: " ++ r.stderr))
    else if env.pngExists then .ok ()
    else .error ("Conversion error: " ++ "PNG file was not generated")

/-- The standard base64 alphabet. -/
def b64char (n : Nat) : Char :=
  ("ABCDEFGHIJKLMNOPQRSTUVWXYZabcdefghijklmnopqrstuvwxyz0123456789+/".data).getD n 'A'

/-- Python `base64.b64encode` over a byte list, with `=` padding. -/
def b64encodeList : List Nat → List Char
  | b1 :: b2 :: b3 :: rest =>
    b64char (b1 / 4) :: b64char (b1 % 4 * 16 + b2 / 16) ::
    b64char (b2 % 16 * 4 + b3 / 64) :: b64char (b3 % 64) :: b64encodeList rest
  | [b1, b2] => [b64char (b1 / 4), b64char (b1 % 4 * 16 + b2 / 16), b64char (b2 % 16 * 4), '=']
  | [b1] => [b64char (b1 / 4), b64char (b1 % 4 * 16), '=', '=']
  | [] => []

/-- Function `file_to_base64` from `src/main.py`, over the file's bytes. -/
def file_to_base64 (bytes : List Nat) : String := String.mk (b64encodeList bytes)

/-- The request body of `POST /compile` (`TikZRequest` pydantic model,
with its defaults). -/
structure TikZRequest where
  tikz_code : String
  output_format : String := "png"
  dpi : Nat := 300
  background : String := "white"
deriving DecidableEq

/-- The response body of `POST /compile` (`CompileResponse` pydantic
model; absent optional fields are `none`). -/
structure CompileResponse where
  success : Bool
  message : String
  pdf_base64 : Option String := none
  png_base64 : Option String := none
  file_id : Option String := none
deriving DecidableEq

/-- What a handler produces: a JSON body, or an `HTTPException` with a
status code and detail text (FastAPI turns the latter into an HTTP error
response with that status). -/
inductive HttpResult where
  | ok : CompileResponse → HttpResult
  | error : Nat → String → HttpResult
deriving DecidableEq

/-- Observable outcome of one `/compile` request, together with the
lifecycle facts the claims talk about: whether a temporary directory was
created (`tempfile.mkdtemp`), whether it was removed again
(`shutil.rmtree` in the `finally` block), and whether the rasterizer was
invoked. -/
structure CompileOutcome where
  result : HttpResult
  tempDirCreated : Bool
  tempDirRemoved : Bool
  convertInvoked : Bool
deriving DecidableEq

/-- The successful-response body before the PNG step: `response_data`
with `pdf_base64` added exactly when the format is `pdf` or `both`. -/
def response_base (req : TikZRequest) (env : CompileEnv) : CompileResponse :=
  let base : CompileResponse :=
    { success := true, message := "Biên dịch thành công", file_id := some env.fileId }
  if req.output_format = "pdf" ∨ req.output_format = "both" then
    { base with pdf_base64 := some (file_to_base64 env.pdfBytes) }
  else base

/-- The `POST /compile` handler `compile_tikz` from `src/main.py`.  The
blank-source check precedes `mkdtemp`; every path through the `try`
reaches the `finally` that removes the temporary directory; any
exception from the pipeline is re-raised as an HTTP 500 whose detail
prefixes the exception text with `"Lỗi biên dịch: "`. -/
def compile_tikz (req : TikZRequest) (env : CompileEnv) : CompileOutcome :=
  if isBlank req.tikz_code then
    { result := .error 400 "TikZ code không được để trống",
      tempDirCreated := false, tempDirRemoved := false, convertInvoked := false }
  else
    match compile_latex_to_pdf env (latex_document req.tikz_code) with
    | .error msg =>
      { result := .error 500 ("Lỗi biên dịch: " ++ msg),
        tempDirCreated := true, tempDirRemoved := true, convertInvoked := false }
    | .ok _ =>
      if req.output_format = "png" ∨ req.output_format = "both" then
        match convert_pdf_to_png env req.dpi req.background with
        | .error msg =>
          { result := .error 500 ("Lỗi biên dịch: " ++ msg),
            tempDirCreated := true, tempDirRemoved := true, convertInvoked := true }
        | .ok _ =>
          { result := .ok { response_base req env with
              png_base64 := some (file_to_base64 env.pngBytes) },
            tempDirCreated := true, tempDirRemoved := true, convertInvoked := true }
      else
        { result := .ok (response_base req env),
          tempDirCreated := true, tempDirRemoved := true, convertInvoked := false }

/-- Is the continuation byte in `0x80..0xBF`? -/
def isContByte (b : Nat) : Bool := 0x80 ≤ b && b ≤ 0xBF

/-- Strict UTF-8 decoding of a byte list into code points (CPython's
`bytes.decode("utf-8")`): rejects continuation-byte errors, overlong
forms, surrogates and code points above `U+10FFFF`. -/
def utf8DecodeAux : List Nat → Option (List Nat)
  | [] => some []
  | b :: rest =>
    if b ≤ 0x7F then (utf8DecodeAux rest).map (b :: ·)
    else if 0xC2 ≤ b && b ≤ 0xDF then
      match rest with
      | c1 :: rest2 =>
        if isContByte c1 then
          (utf8DecodeAux rest2).map (((b - 0xC0) * 0x40 + (c1 - 0x80)) :: ·)
        else none
      | [] => none
    else if 0xE0 ≤ b && b ≤ 0xEF then
      match rest with
      | c1 :: c2 :: rest2 =>
        if (if b = 0xE0 then 0xA0 else 0x80) ≤ c1 &&
           c1 ≤ (if b = 0xED then 0x9F else 0xBF) && isContByte c2 then
          (utf8DecodeAux rest2).map
            (((b - 0xE0) * 0x1000 + (c1 - 0x80) * 0x40 + (c2 - 0x80)) :: ·)
        else none
      | _ => none
    else if 0xF0 ≤ b && b ≤ 0xF4 then
      match rest with
      | c1 :: c2 :: c3 :: rest2 =>
        if (if b = 0xF0 then 0x90 else 0x80) ≤ c1 &&
           c1 ≤ (if b = 0xF4 then 0x8F else 0xBF) && isContByte c2 && isContByte c3 then
          (utf8DecodeAux rest2).map
            (((b - 0xF0) * 0x40000 + (c1 - 0x80) * 0x1000 +
              (c2 - 0x80) * 0x40 + (c3 - 0x80)) :: ·)
        else none
      | _ => none
    else none

/-- Python `content.decode("utf-8")` as a Lean string (`none` models
`UnicodeDecodeError`). -/
def utf8DecodeStr (bs : List Nat) : Option String :=
  (utf8DecodeAux bs).map (fun cps => String.mk (cps.map Char.ofNat))

/-- A multipart upload: filename and raw bytes. -/
structure UploadFile where
  filename : String
  content : List Nat
deriving DecidableEq

/-- Python `file.filename.endswith((".tex", ".tikz", ".txt"))`. -/
def endsWithAllowed (s : String) : Bool :=
  listEndsWith s.data ".tex".data || listEndsWith s.data ".tikz".data ||
  listEndsWith s.data ".txt".data

/-- The `POST /compile-file` handler `compile_tikz_file` from
`src/main.py`.  An `HTTPException` raised by the delegated `compile_tikz`
call is an `Exception`, so the handler's own
`except Exception` catches it and re-raises HTTP 500 with detail
`"Lỗi xử lý file: " + str(e)`, where `str` of an `HTTPException` is
`"{status_code}: {detail}"`. -/
def compile_tikz_file (f : UploadFile) (env : CompileEnv) : CompileOutcome :=
  if !endsWithAllowed f.filename then
    { result := .error 400 "File phải có đuôi .tex, .tikz hoặc .txt",
      tempDirCreated := false, tempDirRemoved := false, convertInvoked := false }
  else
    match utf8DecodeStr f.content with
    | none =>
      { result := .error 400 "File không đúng định dạng UTF-8",
        tempDirCreated := false, tempDirRemoved := false, convertInvoked := false }
    | some code =>
      match compile_tikz { tikz_code := code, output_format := "both" } env with
      | { result := .ok resp, tempDirCreated := c, tempDirRemoved := rm, convertInvoked := ci } =>
        { result := .ok resp, tempDirCreated := c, tempDirRemoved := rm, convertInvoked := ci }
      | { result := .error status detail, tempDirCreated := c, tempDirRemoved := rm, convertInvoked := ci } =>
        { result := .error 500
            ("Lỗi xử lý file: " ++ (toString status ++ (": " ++ detail))),
          tempDirCreated := c, tempDirRemoved := rm, convertInvoked := ci }

/-- Oracle for one `GET /health` request: outcomes of the five probe
invocations (`none` models the probe raising, e.g. `TimeoutExpired`). -/
structure HealthEnv where
  pdflatexVersion : Nat → Option ProcResult
  kpsewhichTikz : Nat → Option ProcResult
  kpsewhichPgfplots : Nat → Option ProcResult
  libProbe : String → Nat → Option ProcResult
  convertVersion : Nat → Option ProcResult

/-- The `info` dict built by `check_tex_installation`; `none` is an
absent key. -/
structure TexInfo where
  pdflatex : Option String := none
  tikz_package : Option String := none
  pgfplots_package : Option String := none
  tikz_libraries : Option (List String) := none
  imagemagick : Option String := none
  /-- Whether the `except` branch ran and set `info["error"]` (its text
  is `str(e)`, environment-dependent, and not modelled further). -/
  errorKey : Bool := false

/-- Function `check_tex_installation` from `src/main.py`.  The four TikZ-library
probes sit inside their own `try/except: pass`, so a raise there is
skipped; a raise in any of the other four probes aborts the remaining
probes and sets the `error` key. -/
def check_tex_installation (env : HealthEnv) : TexInfo :=
  match env.pdflatexVersion HEALTH_PDFLATEX_TIMEOUT with
  | none => { errorKey := true }
  | some r1 =>
    let pd := if r1.returncode = 0 then "available" else "not available"
    match env.kpsewhichTikz HEALTH_KPSEWHICH_TIMEOUT with
    | none => { pdflatex := some pd, errorKey := true }
    | some r2 =>
      let tz := if r2.returncode = 0 then "found" else "not found"
      match env.kpsewhichPgfplots HEALTH_KPSEWHICH_TIMEOUT with
      | none => { pdflatex := some pd, tikz_package := some tz, errorKey := true }
      | some r3 =>
        let pg := if r3.returncode = 0 then "found" else "not found"
        let libs := ["arrows", "decorations", "positioning", "shapes"].filter
          (fun lib => match env.libProbe lib HEALTH_LIB_TIMEOUT with
            | some r => r.returncode = 0
            | none => false)
        match env.convertVersion HEALTH_CONVERT_TIMEOUT with
        | none =>
          { pdflatex := some pd, tikz_package := some tz,
            pgfplots_package := some pg, tikz_libraries := some libs,
            errorKey := true }
        | some r4 =>
          { pdflatex := some pd, tikz_package := some tz,
            pgfplots_package := some pg, tikz_libraries := some libs,
            imagemagick := some (if r4.returncode = 0 then "available" else "not available") }

/-- The composite status computed by the `GET /health` handler
(`health_check` in `src/main.py`): `"healthy"` iff all three critical
keys carry their good value. -/
def health_check (env : HealthEnv) : String :=
  let info := check_tex_installation env
  if info.pdflatex = some "available" ∧ info.tikz_package = some "found" ∧
     info.imagemagick = some "available" then "healthy" else "unhealthy"

/-- Did the probe complete with exit status 0? -/
def exits0 : Option ProcResult → Bool
  | some r => r.returncode == 0
  | none => false

end TikzService

namespace TikzService

theorem data_append (a b : String) : (a ++ b).data = a.data ++ b.data := rfl

theorem startsWithList_append (l m pat : List Char)
    (h : startsWithList l pat = true) : startsWithList (l ++ m) pat = true := by
  induction pat generalizing l with
  | nil => cases l <;> simp [startsWithList]
  | cons b bs ih =>
    cases l with
    | nil => simp [startsWithList] at h
    | cons a as =>
      simp only [startsWithList, Bool.and_eq_true] at h
      simp only [List.cons_append, startsWithList, Bool.and_eq_true]
      exact ⟨h.1, ih as h.2⟩

theorem containsList_nil_pat (l : List Char) : containsList l [] = true := by
  cases l <;> simp [containsList, startsWithList, List.isEmpty]

theorem containsList_append_right (l m pat : List Char)
    (h : containsList l pat = true) : containsList (l ++ m) pat = true := by
  induction l with
  | nil =>
    have hp : pat = [] := by
      cases pat with
      | nil => rfl
      | cons b bs => simp [containsList, List.isEmpty] at h
    subst hp
    exact containsList_nil_pat _
  | cons a rest ih =>
    simp only [containsList, Bool.or_eq_true] at h
    simp only [List.cons_append, containsList, Bool.or_eq_true]
    rcases h with h | h
    · exact Or.inl (by simpa using startsWithList_append (a :: rest) m pat h)
    · exact Or.inr (ih h)

theorem containsList_append_left (l m pat : List Char)
    (h : containsList m pat = true) : containsList (l ++ m) pat = true := by
  induction l with
  | nil => simpa using h
  | cons a rest ih =>
    simp only [List.cons_append, containsList, Bool.or_eq_true]
    exact Or.inr ih

theorem startsWithList_refl (l : List Char) : startsWithList l l = true := by
  induction l with
  | nil => rfl
  | cons a as ih => simp [startsWithList, ih]

theorem containsList_self (l : List Char) : containsList l l = true := by
  cases l with
  | nil => rfl
  | cons a r => simp [containsList, startsWithList_refl]

theorem containsSub_append_left (a b pat : String) (h : containsSub b pat = true) :
    containsSub (a ++ b) pat = true := by
  unfold containsSub at h ⊢
  rw [data_append]
  exact containsList_append_left a.data b.data pat.data h

theorem containsSub_append_right (a b pat : String) (h : containsSub a pat = true) :
    containsSub (a ++ b) pat = true := by
  unfold containsSub at h ⊢
  rw [data_append]
  exact containsList_append_right a.data b.data pat.data h

theorem containsSub_self (p : String) : containsSub p p = true :=
  containsList_self p.data

theorem findLatexError_of_mem (L : List String)
    (h : ∃ i, i + 1 < L.length ∧ containsSub (L.getD i "") "! LaTeX Error:" = true) :
    ∃ d, findLatexError L = some d ∧ containsSub d "! LaTeX Error:" = true := by
  induction L with
  | nil =>
    rcases h with ⟨i, hi, -⟩
    simp at hi
  | cons l1 rest ih =>
    cases rest with
    | nil =>
      rcases h with ⟨i, hi, -⟩
      simp at hi
    | cons l2 rest2 =>
      by_cases hc : containsSub l1 "! LaTeX Error:" = true
      · refine ⟨l1 ++ " " ++ l2, ?_, ?_⟩
        · simp [findLatexError, hc]
        · exact containsSub_append_right _ _ _ (containsSub_append_right _ _ _ hc)
      · rcases h with ⟨i, hi, hgi⟩
        cases i with
        | zero =>
          simp only [List.getD_cons_zero] at hgi
          exact absurd hgi hc
        | succ j =>
          have hj : j + 1 < (l2 :: rest2).length := by
            simp only [List.length_cons] at hi ⊢
            omega
          have hgj : containsSub ((l2 :: rest2).getD j "") "! LaTeX Error:" = true := by
            simpa using hgi
          obtain ⟨d, hd, hcd⟩ := ih ⟨j, hj, hgj⟩
          refine ⟨d, ?_, hcd⟩
          simpa [findLatexError, hc] using hd

end TikzService

namespace TikzService

/-- An environment in which both external tools succeed. -/
def envOk : CompileEnv :=
  { pdflatexRun := fun _ _ _ => some ⟨0, "", ""⟩, logFile := none,
    pdfExists := true, pdfBytes := [37, 80, 68, 70],
    convertRun := fun _ _ => some ⟨0, "", ""⟩, pngExists := true,
    pngBytes := [137, 80, 78, 71], tempDir := "/tmp/tikz", fileId := "id-1" }

/-- C2: every `/compile` request removes its temporary directory —
formally, over all requests and all oracle environments (success,
compiler failure, compiler timeout, missing PDF, converter failure,
converter timeout), the handler removed the temporary directory exactly
when it created one, so none persists after the handler returns. -/
theorem temp_dir_removed_iff_created (req : TikZRequest) (env : CompileEnv) :
    (compile_tikz req env).tempDirRemoved = (compile_tikz req env).tempDirCreated := by
  unfold compile_tikz
  split
  · rfl
  · split
    · rfl
    · split
      · split <;> rfl
      · rfl

/-- C1: at the failing input — a whitespace-only source — `POST /compile`
does answer 400, but the same source uploaded as `blank.tex` through
`POST /compile-file` answers 500, because the 400 `HTTPException` raised
by the delegated compile call is caught by the upload handler's generic
`except Exception` clause and re-raised with status 500. -/
theorem blank_source_compile_400_but_file_500 :
    (compile_tikz { tikz_code := " " } envOk).result =
      .error 400 "TikZ code không được để trống" ∧
    (compile_tikz_file { filename := "blank.tex", content := [32] } envOk).result =
      .error 500 "Lỗi xử lý file: 400: TikZ code không được để trống" :=
  ⟨by decide, by decide⟩

end TikzService

namespace TikzService

/-- An environment in which the compiler exits non-zero (no log file). -/
def envLatexFail : CompileEnv :=
  { pdflatexRun := fun _ _ _ => some ⟨1, "", ""⟩, logFile := none,
    pdfExists := false, pdfBytes := [], convertRun := fun _ _ => none,
    pngExists := false, pngBytes := [], tempDir := "/tmp/tikz", fileId := "id-2" }

/-- An environment in which the compiler invocation times out. -/
def envLatexTimeout : CompileEnv :=
  { pdflatexRun := fun _ _ _ => none, logFile := none,
    pdfExists := false, pdfBytes := [], convertRun := fun _ _ => none,
    pngExists := false, pngBytes := [], tempDir := "/tmp/tikz", fileId := "id-3" }

/-- An environment in which the compiler exits 0 but no PDF appears. -/
def envNoPdf : CompileEnv :=
  { pdflatexRun := fun _ _ _ => some ⟨0, "", ""⟩, logFile := none,
    pdfExists := false, pdfBytes := [], convertRun := fun _ _ => none,
    pngExists := false, pngBytes := [], tempDir := "/tmp/tikz", fileId := "id-4" }

/-- An environment in which compilation succeeds and the converter exits
non-zero. -/
def envConvFail : CompileEnv :=
  { pdflatexRun := fun _ _ _ => some ⟨0, "", ""⟩, logFile := none,
    pdfExists := true, pdfBytes := [37], convertRun := fun _ _ => some ⟨1, "", "bad pdf"⟩,
    pngExists := false, pngBytes := [], tempDir := "/tmp/tikz", fileId := "id-5" }

/-- An environment in which compilation succeeds and the converter
invocation times out. -/
def envConvTimeout : CompileEnv :=
  { pdflatexRun := fun _ _ _ => some ⟨0, "", ""⟩, logFile := none,
    pdfExists := true, pdfBytes := [37], convertRun := fun _ _ => none,
    pngExists := false, pngBytes := [], tempDir := "/tmp/tikz", fileId := "id-6" }

/-- C3: for non-empty source, each failure kind — compiler non-zero
exit, compiler timeout, missing PDF artifact, rasterizer non-zero exit,
rasterizer timeout — yields an HTTP 500 response carrying the
human-readable message shown. -/
theorem failure_paths_yield_500 :
    (∀ (env : CompileEnv) (req : TikZRequest) (r : ProcResult),
      isBlank req.tikz_code = false →
      run_pdflatex env (latex_document req.tikz_code) = some r → r.returncode ≠ 0 →
      (compile_tikz req env).result = .error 500
        ("Lỗi biên dịch: " ++ ("Compilation error: " ++
          ("LaTeX compilation failed: " ++ latex_error_details env r)))) ∧
    (∀ (env : CompileEnv) (req : TikZRequest),
      isBlank req.tikz_code = false →
      run_pdflatex env (latex_document req.tikz_code) = none →
      (compile_tikz req env).result = .error 500
        "Lỗi biên dịch: LaTeX compilation timeout (45s) - code quá phức tạp hoặc lỗi infinite loop") ∧
    (∀ (env : CompileEnv) (req : TikZRequest) (r : ProcResult),
      isBlank req.tikz_code = false →
      run_pdflatex env (latex_document req.tikz_code) = some r → r.returncode = 0 →
      env.pdfExists = false →
      (compile_tikz req env).result = .error 500
        "Lỗi biên dịch: Compilation error: PDF file was not generated - check LaTeX syntax") ∧
    (∀ (env : CompileEnv) (req : TikZRequest) (r rc : ProcResult),
      isBlank req.tikz_code = false →
      run_pdflatex env (latex_document req.tikz_code) = some r → r.returncode = 0 →
      env.pdfExists = true →
      (req.output_format = "png" ∨ req.output_format = "both") →
      run_convert env req.dpi req.background = some rc → rc.returncode ≠ 0 →
      (compile_tikz req env).result = .error 500
        ("Lỗi biên dịch: " ++ ("Conversion error: " ++
          ("PDF to PNG conversion failed: " ++ rc.stderr)))) ∧
    (∀ (env : CompileEnv) (req : TikZRequest) (r : ProcResult),
      isBlank req.tikz_code = false →
      run_pdflatex env (latex_document req.tikz_code) = some r → r.returncode = 0 →
      env.pdfExists = true →
      (req.output_format = "png" ∨ req.output_format = "both") →
      run_convert env req.dpi req.background = none →
      (compile_tikz req env).result = .error 500
        "Lỗi biên dịch: PDF to PNG conversion timeout") := by
  refine ⟨?_, ?_, ?_, ?_, ?_⟩
  · intro env req r hb hrun hrc
    simp [compile_tikz, compile_latex_to_pdf, hb, hrun, hrc]
  · intro env req hb hrun
    simp [compile_tikz, compile_latex_to_pdf, hb, hrun]
  · intro env req r hb hrun hrc hpdf
    simp [compile_tikz, compile_latex_to_pdf, hb, hrun, hrc, hpdf]
  · intro env req r rc hb hrun hrc hpdf hfmt hconv hrc2
    rcases hfmt with h | h <;>
      simp [compile_tikz, compile_latex_to_pdf, convert_pdf_to_png,
            hb, hrun, hrc, hpdf, h, hconv, hrc2]
  · intro env req r hb hrun hrc hpdf hfmt hconv
    rcases hfmt with h | h <;>
      simp [compile_tikz, compile_latex_to_pdf, convert_pdf_to_png,
            hb, hrun, hrc, hpdf, h, hconv]

/-- Witness for C3: each of the five failure kinds at a concrete
environment, via `failure_paths_yield_500`. -/
theorem failure_paths_yield_500_witness :
    (compile_tikz { tikz_code := "x" } envLatexFail).result = .error 500
      ("Lỗi biên dịch: " ++ ("Compilation error: " ++
        ("LaTeX compilation failed: " ++ latex_error_details envLatexFail ⟨1, "", ""⟩))) ∧
    (compile_tikz { tikz_code := "x" } envLatexTimeout).result = .error 500
      "Lỗi biên dịch: LaTeX compilation timeout (45s) - code quá phức tạp hoặc lỗi infinite loop" ∧
    (compile_tikz { tikz_code := "x" } envNoPdf).result = .error 500
      "Lỗi biên dịch: Compilation error: PDF file was not generated - check LaTeX syntax" ∧
    (compile_tikz { tikz_code := "x" } envConvFail).result = .error 500
      ("Lỗi biên dịch: " ++ ("Conversion error: " ++
        ("PDF to PNG conversion failed: " ++ "bad pdf"))) ∧
    (compile_tikz { tikz_code := "x" } envConvTimeout).result = .error 500
      "Lỗi biên dịch: PDF to PNG conversion timeout" :=
  ⟨failure_paths_yield_500.1 envLatexFail _ ⟨1, "", ""⟩ (by decide) rfl (by decide),
   failure_paths_yield_500.2.1 envLatexTimeout _ (by decide) rfl,
   failure_paths_yield_500.2.2.1 envNoPdf _ ⟨0, "", ""⟩ (by decide) rfl rfl rfl,
   failure_paths_yield_500.2.2.2.1 envConvFail _ ⟨0, "", ""⟩ ⟨1, "", "bad pdf"⟩
     (by decide) rfl rfl rfl (Or.inl rfl) rfl (by decide),
   failure_paths_yield_500.2.2.2.2 envConvTimeout _ ⟨0, "", ""⟩
     (by decide) rfl rfl rfl (Or.inl rfl) rfl⟩

/-- C4: with `output_format = "both"` and both tools succeeding, the
response is `success = true` with `pdf_base64` and `png_base64` holding
the base64 encodings of the produced PDF and PNG bytes. -/
theorem both_format_success (env : CompileEnv) (req : TikZRequest) (r rc : ProcResult)
    (hb : isBlank req.tikz_code = false)
    (hfmt : req.output_format = "both")
    (hrun : run_pdflatex env (latex_document req.tikz_code) = some r)
    (hrc : r.returncode = 0)
    (hpdf : env.pdfExists = true)
    (hconv : run_convert env req.dpi req.background = some rc)
    (hrc2 : rc.returncode = 0)
    (hpng : env.pngExists = true) :
    (compile_tikz req env).result = .ok
      { success := true, message := "Biên dịch thành công",
        pdf_base64 := some (file_to_base64 env.pdfBytes),
        png_base64 := some (file_to_base64 env.pngBytes),
        file_id := some env.fileId } := by
  simp [compile_tikz, compile_latex_to_pdf, convert_pdf_to_png, response_base,
        hb, hfmt, hrun, hrc, hpdf, hconv, hrc2, hpng]

/-- Witness for C4 at a concrete all-success environment. -/
theorem both_format_success_witness :
    (compile_tikz { tikz_code := "x", output_format := "both" } envOk).result = .ok
      { success := true, message := "Biên dịch thành công",
        pdf_base64 := some (file_to_base64 [37, 80, 68, 70]),
        png_base64 := some (file_to_base64 [137, 80, 78, 71]),
        file_id := some "id-1" } :=
  both_format_success envOk _ ⟨0, "", ""⟩ ⟨0, "", ""⟩
    (by decide) rfl rfl rfl rfl rfl rfl rfl

end TikzService

namespace TikzService

/-- C5: `POST /compile-file` rejects filenames outside
`.tex`/`.tikz`/`.txt` with HTTP 400, and otherwise decodes the body as
UTF-8 and delegates to the `/compile` path with `output_format = "both"`
(shown here on the observable success side: whenever that delegated
compile succeeds, the upload endpoint returns its response). -/
theorem compile_file_gating_and_delegation :
    (∀ (f : UploadFile) (env : CompileEnv),
      endsWithAllowed f.filename = false →
      (compile_tikz_file f env).result =
        .error 400 "File phải có đuôi .tex, .tikz hoặc .txt") ∧
    (∀ (f : UploadFile) (env : CompileEnv) (code : String) (resp : CompileResponse),
      endsWithAllowed f.filename = true →
      utf8DecodeStr f.content = some code →
      (compile_tikz { tikz_code := code, output_format := "both" } env).result = .ok resp →
      (compile_tikz_file f env).result = .ok resp) := by
  constructor
  · intro f env h
    simp [compile_tikz_file, h]
  · intro f env code resp hext hdec hok
    rcases hc : compile_tikz { tikz_code := code, output_format := "both" } env with
      ⟨res, c, rm, ci⟩
    rw [hc] at hok
    change res = .ok resp at hok
    subst hok
    simp [compile_tikz_file, hext, hdec, hc]

/-- Witness for C5: a disallowed extension is rejected 400, and a valid
`.txt` upload of the byte `0x78` (`"x"`) returns the delegated compile
path's successful response. -/
theorem compile_file_gating_and_delegation_witness :
    (compile_tikz_file { filename := "a.pdf", content := [120] } envOk).result =
      .error 400 "File phải có đuôi .tex, .tikz hoặc .txt" ∧
    (compile_tikz_file { filename := "a.txt", content := [120] } envOk).result = .ok
      { success := true, message := "Biên dịch thành công",
        pdf_base64 := some (file_to_base64 [37, 80, 68, 70]),
        png_base64 := some (file_to_base64 [137, 80, 78, 71]),
        file_id := some "id-1" } :=
  ⟨compile_file_gating_and_delegation.1 ⟨"a.pdf", [120]⟩ envOk (by decide),
   compile_file_gating_and_delegation.2 ⟨"a.txt", [120]⟩ envOk "x" _
     (by decide) (by decide) (by decide)⟩

/-- C6: an upload whose bytes are not valid UTF-8 is always answered
with HTTP 400 (either the extension rejection or the decode
rejection). -/
theorem non_utf8_upload_rejected (f : UploadFile) (env : CompileEnv)
    (h : utf8DecodeStr f.content = none) :
    ∃ detail, (compile_tikz_file f env).result = .error 400 detail := by
  by_cases hext : endsWithAllowed f.filename = true
  · refine ⟨"File không đúng định dạng UTF-8", ?_⟩
    simp [compile_tikz_file, hext, h]
  · refine ⟨"File phải có đuôi .tex, .tikz hoặc .txt", ?_⟩
    simp [compile_tikz_file, hext]

/-- Witness for C6: the single byte `0xFF` is not valid UTF-8. -/
theorem non_utf8_upload_rejected_witness :
    ∃ detail, (compile_tikz_file { filename := "a.tex", content := [255] } envOk).result =
      .error 400 detail :=
  non_utf8_upload_rejected ⟨"a.tex", [255]⟩ envOk (by decide)

end TikzService

namespace TikzService

/-- A health environment in which every probe succeeds. -/
def healthEnvAllOk : HealthEnv :=
  { pdflatexVersion := fun _ => some ⟨0, "", ""⟩,
    kpsewhichTikz := fun _ => some ⟨0, "", ""⟩,
    kpsewhichPgfplots := fun _ => some ⟨0, "", ""⟩,
    libProbe := fun _ _ => some ⟨0, "", ""⟩,
    convertVersion := fun _ => some ⟨0, "", ""⟩ }

/-- A health environment in which the three critical probes would all
exit 0 but the unguarded `kpsewhich pgfplots.sty` probe raises. -/
def healthEnvPgfRaises : HealthEnv :=
  { pdflatexVersion := fun _ => some ⟨0, "", ""⟩,
    kpsewhichTikz := fun _ => some ⟨0, "", ""⟩,
    kpsewhichPgfplots := fun _ => none,
    libProbe := fun _ _ => some ⟨0, "", ""⟩,
    convertVersion := fun _ => some ⟨0, "", ""⟩ }

/-- Counterexample to C7 as stated: in `healthEnvPgfRaises` the
compiler, tikz and rasterizer probes all exit 0, yet the status is
`"unhealthy"`, because the pgfplots lookup raising aborts
`check_tex_installation` before the rasterizer probe runs — so the
pgfplots lookup does affect the composite status. -/
theorem health_probe_iff_counterexample :
    ¬ (health_check healthEnvPgfRaises = "healthy" ↔
        (exits0 (healthEnvPgfRaises.pdflatexVersion HEALTH_PDFLATEX_TIMEOUT) = true ∧
         exits0 (healthEnvPgfRaises.kpsewhichTikz HEALTH_KPSEWHICH_TIMEOUT) = true ∧
         exits0 (healthEnvPgfRaises.convertVersion HEALTH_CONVERT_TIMEOUT) = true)) := by
  decide

/-- C7 amended: provided the pgfplots lookup invocation itself completes
(it may exit non-zero, which is only reported), the status is
`"healthy"` iff the compiler version check, the tikz.sty lookup and the
rasterizer version check all exit 0. -/
theorem health_status_iff_probes (env : HealthEnv) (r3 : ProcResult)
    (hpgf : env.kpsewhichPgfplots HEALTH_KPSEWHICH_TIMEOUT = some r3) :
    (health_check env = "healthy" ↔
      (exits0 (env.pdflatexVersion HEALTH_PDFLATEX_TIMEOUT) = true ∧
       exits0 (env.kpsewhichTikz HEALTH_KPSEWHICH_TIMEOUT) = true ∧
       exits0 (env.convertVersion HEALTH_CONVERT_TIMEOUT) = true)) := by
  have hne : ("unhealthy" : String) ≠ "healthy" := by decide
  have hna : ("not available" : String) ≠ "available" := by decide
  have hnf : ("not found" : String) ≠ "found" := by decide
  cases h1 : env.pdflatexVersion HEALTH_PDFLATEX_TIMEOUT with
  | none => simp [health_check, check_tex_installation, h1, exits0, hne]
  | some r1 =>
    cases h2 : env.kpsewhichTikz HEALTH_KPSEWHICH_TIMEOUT with
    | none => simp [health_check, check_tex_installation, h1, h2, exits0, hne]
    | some r2 =>
      cases h4 : env.convertVersion HEALTH_CONVERT_TIMEOUT with
      | none => simp [health_check, check_tex_installation, h1, h2, hpgf, h4, exits0, hne]
      | some r4 =>
        by_cases z1 : r1.returncode = 0 <;> by_cases z2 : r2.returncode = 0 <;>
          by_cases z4 : r4.returncode = 0 <;>
          simp [health_check, check_tex_installation, h1, h2, hpgf, h4,
                exits0, z1, z2, z4, hne, hna, hnf]

/-- Witness for the amended C7: with every probe exiting 0 the status is
`"healthy"`. -/
theorem health_status_iff_probes_witness :
    health_check healthEnvAllOk = "healthy" :=
  (health_status_iff_probes healthEnvAllOk ⟨0, "", ""⟩ rfl).mpr (by decide)

end TikzService

namespace TikzService

/-- An environment whose compiler fails leaving a log consisting of a
single line that contains `"! LaTeX Error:"`. -/
def envLogLastLine : CompileEnv :=
  { pdflatexRun := fun _ _ _ => some ⟨1, "", ""⟩,
    logFile := some "! LaTeX Error: x",
    pdfExists := false, pdfBytes := [], convertRun := fun _ _ => none,
    pngExists := false, pngBytes := [], tempDir := "/tmp/tikz", fileId := "id-7" }

/-- Counterexample to C8 as stated: the log contains the first
recognized pattern `"! LaTeX Error:"`, yet the 500 message carries no
corresponding text (neither the pattern nor the matched error line),
because the line scan skips a match on the final log line and leaves the
default `"Unknown LaTeX error"`. -/
theorem latex_error_pattern_counterexample :
    containsSub "! LaTeX Error: x" "! LaTeX Error:" = true ∧
    (compile_tikz { tikz_code := "x" } envLogLastLine).result = .error 500
      "Lỗi biên dịch: Compilation error: LaTeX compilation failed: Unknown LaTeX error" ∧
    containsSub
      "Lỗi biên dịch: Compilation error: LaTeX compilation failed: Unknown LaTeX error"
      "! LaTeX Error:" = false :=
  ⟨by decide, by decide, by decide⟩

/-- C8 amended: when compilation fails and the log exists, the 500
message contains the category text of the first matching pattern in the
fixed order `"! LaTeX Error:"`, `"! Undefined control sequence"`,
`"! Package tikz Error:"`, `"! Package pgfplots Error:"`,
`"library not found"` — with the proviso forced by the counterexample
that for `"! LaTeX Error:"` the matched line (and hence the pattern
text) only reaches the message when some non-final log line contains
the pattern. -/
theorem log_pattern_drives_message (env : CompileEnv) (req : TikZRequest)
    (r : ProcResult) (log : String)
    (hb : isBlank req.tikz_code = false)
    (hrun : run_pdflatex env (latex_document req.tikz_code) = some r)
    (hrc : r.returncode ≠ 0)
    (hlog : env.logFile = some log) :
    ∃ msg, (compile_tikz req env).result = .error 500 msg ∧
      ((containsSub log "! LaTeX Error:" = true ∧
        (∃ i, i + 1 < (pySplitLines log).length ∧
          containsSub ((pySplitLines log).getD i "") "! LaTeX Error:" = true) →
        containsSub msg "! LaTeX Error:" = true) ∧
       (containsSub log "! LaTeX Error:" = false →
        containsSub log "! Undefined control sequence" = true →
        containsSub msg UNDEF_MSG = true) ∧
       (containsSub log "! LaTeX Error:" = false →
        containsSub log "! Undefined control sequence" = false →
        containsSub log "! Package tikz Error:" = true →
        containsSub msg TIKZ_MSG = true) ∧
       (containsSub log "! LaTeX Error:" = false →
        containsSub log "! Undefined control sequence" = false →
        containsSub log "! Package tikz Error:" = false →
        containsSub log "! Package pgfplots Error:" = true →
        containsSub msg PGF_MSG = true) ∧
       (containsSub log "! LaTeX Error:" = false →
        containsSub log "! Undefined control sequence" = false →
        containsSub log "! Package tikz Error:" = false →
        containsSub log "! Package pgfplots Error:" = false →
        containsSub (pyLower log) "library not found" = true →
        containsSub msg LIB_MSG = true)) := by
  refine ⟨"Lỗi biên dịch: " ++ ("Compilation error: " ++
    ("LaTeX compilation failed: " ++ error_details_of log r.stderr)),
    ?_, ?_, ?_, ?_, ?_, ?_⟩
  · simp [compile_tikz, compile_latex_to_pdf, latex_error_details, hb, hrun, hrc, hlog]
  · rintro ⟨hc, hex⟩
    obtain ⟨d, hd, hcd⟩ := findLatexError_of_mem _ hex
    have hdet : error_details_of log r.stderr = d := by
      simp [error_details_of, hc, hd]
    rw [hdet]
    exact containsSub_append_left _ _ _ (containsSub_append_left _ _ _
      (containsSub_append_left _ _ _ hcd))
  · intro h1 h2
    have hdet : error_details_of log r.stderr = UNDEF_MSG := by
      simp [error_details_of, h1, h2]
    rw [hdet]
    exact containsSub_append_left _ _ _ (containsSub_append_left _ _ _
      (containsSub_append_left _ _ _ (containsSub_self _)))
  · intro h1 h2 h3
    have hdet : error_details_of log r.stderr = TIKZ_MSG := by
      simp [error_details_of, h1, h2, h3]
    rw [hdet]
    exact containsSub_append_left _ _ _ (containsSub_append_left _ _ _
      (containsSub_append_left _ _ _ (containsSub_self _)))
  · intro h1 h2 h3 h4
    have hdet : error_details_of log r.stderr = PGF_MSG := by
      simp [error_details_of, h1, h2, h3, h4]
    rw [hdet]
    exact containsSub_append_left _ _ _ (containsSub_append_left _ _ _
      (containsSub_append_left _ _ _ (containsSub_self _)))
  · intro h1 h2 h3 h4 h5
    have hdet : error_details_of log r.stderr = LIB_MSG := by
      simp [error_details_of, h1, h2, h3, h4, h5]
    rw [hdet]
    exact containsSub_append_left _ _ _ (containsSub_append_left _ _ _
      (containsSub_append_left _ _ _ (containsSub_self _)))

/-- An environment whose compiler fails leaving a log matching the
`"! Undefined control sequence"` pattern. -/
def envLogUndef : CompileEnv :=
  { pdflatexRun := fun _ _ _ => some ⟨1, "", ""⟩,
    logFile := some "x\n! Undefined control sequence\ny",
    pdfExists := false, pdfBytes := [], convertRun := fun _ _ => none,
    pngExists := false, pngBytes := [], tempDir := "/tmp/tikz", fileId := "id-8" }

/-- Witness for the amended C8 at `envLogUndef`. -/
theorem log_pattern_drives_message_witness :
    ∃ msg, (compile_tikz { tikz_code := "x" } envLogUndef).result = .error 500 msg ∧
      containsSub msg UNDEF_MSG = true := by
  obtain ⟨msg, hres, -, h2, -, -, -⟩ :=
    log_pattern_drives_message envLogUndef { tikz_code := "x" } ⟨1, "", ""⟩
      "x\n! Undefined control sequence\ny" (by decide) rfl (by decide) rfl
  exact ⟨msg, hres, h2 (by decide) (by decide)⟩

end TikzService

namespace TikzService

/-- Counterexample to C9 as stated: not every external tool invocation
is bounded by a timeout within 30–45 seconds — the health check's
`pdflatex --version` probe (and its other probes) use fixed timeouts of
3–10 seconds. -/
theorem timeout_range_counterexample :
    HEALTH_PDFLATEX_TIMEOUT = 10 ∧ HEALTH_KPSEWHICH_TIMEOUT = 5 ∧
    HEALTH_LIB_TIMEOUT = 3 ∧ HEALTH_CONVERT_TIMEOUT = 5 ∧
    ¬ (30 ≤ HEALTH_PDFLATEX_TIMEOUT ∧ HEALTH_PDFLATEX_TIMEOUT ≤ 45) := by
  decide

/-- C9 amended: the compile-path invocations are bounded by fixed
timeouts within 30–45 seconds — the compiler by 45 s and the rasterizer
by 30 s — and on expiry the invocation is treated as a failure (an HTTP
500) rather than waited on; the health-probe invocations are also
timeout-bounded but with the shorter 3–10 s constants above. -/
theorem timeout_bounds :
    PDFLATEX_TIMEOUT = 45 ∧ CONVERT_TIMEOUT = 30 ∧
    (30 ≤ PDFLATEX_TIMEOUT ∧ PDFLATEX_TIMEOUT ≤ 45) ∧
    (30 ≤ CONVERT_TIMEOUT ∧ CONVERT_TIMEOUT ≤ 45) ∧
    (∀ (env : CompileEnv) (req : TikZRequest),
      isBlank req.tikz_code = false →
      run_pdflatex env (latex_document req.tikz_code) = none →
      (compile_tikz req env).result = .error 500
        "Lỗi biên dịch: LaTeX compilation timeout (45s) - code quá phức tạp hoặc lỗi infinite loop") ∧
    (∀ (env : CompileEnv) (req : TikZRequest) (r : ProcResult),
      isBlank req.tikz_code = false →
      run_pdflatex env (latex_document req.tikz_code) = some r → r.returncode = 0 →
      env.pdfExists = true →
      (req.output_format = "png" ∨ req.output_format = "both") →
      run_convert env req.dpi req.background = none →
      (compile_tikz req env).result = .error 500
        "Lỗi biên dịch: PDF to PNG conversion timeout") := by
  refine ⟨rfl, rfl, by decide, by decide, ?_, ?_⟩
  · intro env req hb hrun
    simp [compile_tikz, compile_latex_to_pdf, hb, hrun]
  · intro env req r hb hrun hrc hpdf hfmt hconv
    rcases hfmt with h | h <;>
      simp [compile_tikz, compile_latex_to_pdf, convert_pdf_to_png,
            hb, hrun, hrc, hpdf, h, hconv]

/-- Witness for the amended C9: a compiler timeout and a rasterizer
timeout at concrete environments, via `timeout_bounds`. -/
theorem timeout_bounds_witness :
    (compile_tikz { tikz_code := "x" } envLatexTimeout).result = .error 500
      "Lỗi biên dịch: LaTeX compilation timeout (45s) - code quá phức tạp hoặc lỗi infinite loop" ∧
    (compile_tikz { tikz_code := "x" } envConvTimeout).result = .error 500
      "Lỗi biên dịch: PDF to PNG conversion timeout" :=
  ⟨timeout_bounds.2.2.2.2.1 envLatexTimeout _ (by decide) rfl,
   timeout_bounds.2.2.2.2.2 envConvTimeout _ ⟨0, "", ""⟩
     (by decide) rfl rfl rfl (Or.inl rfl) rfl⟩

/-- C10: with a successful compile and an `output_format` that is none
of `"png"`, `"pdf"`, `"both"`, the response is `success = true` with
neither base64 field populated, and the rasterizer is never invoked. -/
theorem unknown_format_no_artifacts (env : CompileEnv) (req : TikZRequest)
    (r : ProcResult)
    (hb : isBlank req.tikz_code = false)
    (h1 : req.output_format ≠ "png") (h2 : req.output_format ≠ "pdf")
    (h3 : req.output_format ≠ "both")
    (hrun : run_pdflatex env (latex_document req.tikz_code) = some r)
    (hrc : r.returncode = 0) (hpdf : env.pdfExists = true) :
    (compile_tikz req env).result = .ok
      { success := true, message := "Biên dịch thành công",
        pdf_base64 := none, png_base64 := none, file_id := some env.fileId } ∧
    (compile_tikz req env).convertInvoked = false := by
  constructor <;>
    simp [compile_tikz, compile_latex_to_pdf, response_base,
          hb, hrun, hrc, hpdf, h1, h2, h3]

/-- Witness for C10 with `output_format = "svg"`. -/
theorem unknown_format_no_artifacts_witness :
    (compile_tikz { tikz_code := "x", output_format := "svg" } envOk).result = .ok
      { success := true, message := "Biên dịch thành công",
        pdf_base64 := none, png_base64 := none, file_id := some "id-1" } ∧
    (compile_tikz { tikz_code := "x", output_format := "svg" } envOk).convertInvoked = false :=
  unknown_format_no_artifacts envOk _ ⟨0, "", ""⟩
    (by decide) (by decide) (by decide) (by decide) rfl rfl rfl

end TikzService
